import Mathlib

/-!
Verification of the terrain-generation script `blend_dtm.py` (Morse/MaRDi).

The script is shallowly embedded: Python floats are modelled as rationals
(`ℚ`), Python strings as `List Char`, the external gdal subprocess boundary
as an explicit `ExtResult` input, Blender host state (materials, texture
slots, modifiers, saved files) as explicit records threaded through the
translated operations, and a Python run that raises an uncaught exception
as `none` in an `Option`-valued run function.
-/

/-- Numeric value of a list of decimal digit characters, most significant
first, as Python `int` of the digit string (model of positional notation). -/
def natOfDigits (cs : List Char) : ℕ :=
  cs.foldl (fun n c => 10 * n + (c.toNat - 48)) 0

/-- Model of the mantissa part of Python `float()` parsing: an optional
integer part, optionally followed by a point and an optional fraction part;
at least one digit overall. The value is returned in exact decimal form, as
an integer mantissa together with the power-of-ten shift contributed by the
fraction digits, with the unconsumed remainder. -/
def parseMantissaParts (s : List Char) : Option (Int × Int × List Char) :=
  let ip := s.takeWhile Char.isDigit
  let r1 := s.dropWhile Char.isDigit
  match r1 with
  | '.' :: r2 =>
      let fp := r2.takeWhile Char.isDigit
      let r3 := r2.dropWhile Char.isDigit
      if ip = [] ∧ fp = [] then none
      else some ((natOfDigits (ip ++ fp) : Int), (-(fp.length : Int), r3))
  | _ => if ip = [] then none else some ((natOfDigits ip : Int), (0, r1))

/-- Model of the exponent part of Python `float()` parsing: `e`/`E`, an
optional sign, then at least one digit; absence of `e`/`E` is exponent 0. -/
def parseExponent (s : List Char) : Option (Int × List Char) :=
  match s with
  | 'e' :: r | 'E' :: r =>
      let signed : Int × List Char :=
        match r with
        | '-' :: r2 => (-1, r2)
        | '+' :: r2 => (1, r2)
        | _ => (1, r)
      let ds := signed.2.takeWhile Char.isDigit
      let r3 := signed.2.dropWhile Char.isDigit
      if ds = [] then none else some (signed.1 * (natOfDigits ds : Int), r3)
  | _ => some (0, s)

/-- Scale a rational by a signed power of ten (exact semantics of the
decimal exponent). -/
def timesPow10 (m : ℚ) (e : Int) : ℚ :=
  if 0 ≤ e then m * (10 : ℚ) ^ e.toNat else m / (10 : ℚ) ^ (-e).toNat

/-- Char-level part of the Python `float()` model: optional sign, mantissa,
optional exponent, nothing left over; `none` models the `ValueError` raised
on any other input. Returns the signed integer mantissa and the total
decimal exponent. Special forms (`inf`, `nan`, underscores, surrounding
whitespace) are outside the printed-tuple format and are not modelled. -/
def pyFloatParts (s : List Char) : Option (Int × Int) :=
  let signed : Int × List Char :=
    match s with
    | '-' :: r => (-1, r)
    | '+' :: r => (1, r)
    | _ => (1, s)
  match parseMantissaParts signed.2 with
  | none => none
  | some (m, e0, r1) =>
      match parseExponent r1 with
      | none => none
      | some (e, r2) => if r2 = [] then some (signed.1 * m, e0 + e) else none

/-- The exact rational value of a signed mantissa and decimal exponent (the
idealisation of the IEEE double Python `float()` would produce). -/
def decValue (p : Int × Int) : ℚ := timesPow10 (p.1 : ℚ) p.2

/-- Model of Python `float()` on the numeral strings printed for a
geotransform, valued exactly in `ℚ`. -/
def pyFloat (s : List Char) : Option ℚ := (pyFloatParts s).map decValue

/-- Model of Python `str.split(', ')`: greedy left-to-right split on the
two-character separator; never returns an empty list. -/
def splitCommaSpace : List Char → List (List Char)
  | [] => [[]]
  | [c] => [[c]]
  | c :: d :: rest =>
      if c = ',' ∧ d = ' ' then [] :: splitCommaSpace rest
      else
        match splitCommaSpace (d :: rest) with
        | t :: ts => (c :: t) :: ts
        | [] => [[c]]

/-- Join tokens with the separator `", "` (how Python prints the elements of
a tuple). -/
def intercalateCS : List (List Char) → List Char
  | [] => []
  | [t] => t
  | t :: ts => t ++ ',' :: ' ' :: intercalateCS ts

/-- The text Python `print` produces for a nonempty tuple whose elements
print as the given tokens: the tokens joined by `", "`, wrapped in
parentheses. -/
def tupleRepr (ts : List (List Char)) : List Char :=
  '(' :: (intercalateCS ts ++ [')'])

/-- Model of the Python slice `s[1:-1]` used in `geotransform` to strip the
surrounding parentheses. -/
def pySlice1m1 (s : List Char) : List Char :=
  (s.drop 1).dropLast

/-- Run the float conversion over every token in order; the first failure
aborts the whole conversion (model of the list comprehension
`[float(value) for value in geot[1:-1].split(', ')]`, whose first
`ValueError` propagates out of the comprehension). -/
def parseAll (f : List Char → Option ℚ) : List (List Char) → Option (List ℚ)
  | [] => some []
  | t :: ts =>
      match f t, parseAll f ts with
      | some q, some qs => some (q :: qs)
      | _, _ => none

/-- The fallback geotransform `(0,1,0,0,0,1)` returned by `geotransform` on
every failure path (`blend_dtm.py`, line 143). -/
def identityTransform : List ℚ := [0, 1, 0, 0, 0, 1]

/-- Outcome of the external gdal metadata query (`ext_exec` in the source):
either an exception raised at the subprocess boundary, or the captured
output text. -/
inductive ExtResult where
  | raised : ExtResult
  | out : List Char → ExtResult

/-- Shallow embedding of `geotransform(filepath)` (`blend_dtm.py`,
lines 126-143), as a function of the external query's outcome: an empty
output or an exception yields the identity transform; otherwise the output
is stripped of its first and last character, split on `", "`, and each
token converted by `float`; any conversion failure is caught and yields the
identity transform. -/
def geotransform : ExtResult → List ℚ
  | .raised => identityTransform
  | .out s =>
      if s = [] then identityTransform
      else
        match parseAll pyFloat (splitCommaSpace (pySlice1m1 s)) with
        | some vs => vs
        | none => identityTransform

example : pyFloatParts ['2', '.', '5'] = some (25, -1) := by decide
example : pyFloatParts ['-', '1', '.', '0'] = some (-10, -1) := by decide
example : pyFloatParts ['1', 'e', '-', '2'] = some (1, -2) := by decide
example : pyFloatParts [] = none := by decide
example : pyFloatParts ['a'] = none := by decide
example : decValue (25, -1) = 5 / 2 := by norm_num [decValue, timesPow10]
example : decValue (-10, -1) = -1 := by norm_num [decValue, timesPow10]
example : decValue (1, -2) = 1 / 100 := by norm_num [decValue, timesPow10, Int.toNat]
example : splitCommaSpace ['a', ',', ' ', 'b'] = [['a'], ['b']] := by decide
example : geotransform (.out (tupleRepr [['0'], ['2'], ['0'], ['0'], ['0'], ['-', '1']]))
    = [decValue (0, 0), decValue (2, 0), decValue (0, 0), decValue (0, 0),
       decValue (0, 0), decValue (-1, 0)] := rfl
example : decValue (2, 0) = 2 := by norm_num [decValue, timesPow10]
example : geotransform (.out ['x']) = identityTransform := rfl
example : geotransform .raised = identityTransform := rfl

/-- Identity of an image opened during the run: the DEM raster (`args[0]`),
the color raster (`args[1]`), or a file opened by path (the hillshade). -/
inductive ImgId where
  | demImg : ImgId
  | imgImg : ImgId
  | fileImg : String → ImgId
deriving DecidableEq

/-- The texture state `new_image_texture` produces (`blend_dtm.py`,
lines 23-33): a fresh texture renamed, switched to the `IMAGE` type and
bound to an image. `use_normal_map` is the host default `false` until
`add_hillshade` sets it. -/
structure Texture where
  name : String
  type : String
  image : ImgId
  use_normal_map : Bool
deriving DecidableEq

/-- The slice of Blender material state the script reads or writes: the
active texture slot index, the texture bound to each slot, and each slot's
material-visibility flag (`use_textures`). -/
structure Material where
  name : String
  specular_intensity : ℚ
  active_texture_index : ℕ
  slots : ℕ → Option Texture
  use_textures : ℕ → Bool

/-- Host state of a freshly created material (`new_material`,
lines 15-17): Blender defaults — active slot 0, all slots empty, all
slot-visibility flags enabled, default specular intensity 1/2. -/
def new_material : Material :=
  { name := "Material"
    specular_intensity := 1 / 2
    active_texture_index := 0
    slots := fun _ => none
    use_textures := fun _ => true }

/-- Embedding of `new_image_texture(material, image, name)` (lines 23-33):
creates a texture in the material's active slot, renames it, sets its type
to `IMAGE` and binds the image; returns the texture (the source returns
`material.active_texture`) together with the updated material. -/
def new_image_texture (m : Material) (image : ImgId) (name : String) :
    Texture × Material :=
  let t : Texture := { name := name, type := "IMAGE", image := image, use_normal_map := false }
  (t, { m with slots := Function.update m.slots m.active_texture_index (some t) })

/-- A modifier added to the ground object: `Displace` (with target texture
name, strength, displacement direction and whether it was baked by
`modifier_apply`) or `Decimate` (ratio, viewport-preview flag, baked
flag). -/
inductive Stage where
  | displace : String → ℚ → String → Bool → Stage
  | decimate : ℚ → Bool → Bool → Stage
deriving DecidableEq

/-- Embedding of `add_displace_modifier(obj, texture, strength, direction,
apply)` (lines 211-224); the source's defaults are `strength=1`,
`direction='Z'`, `apply=False`, and `main` passes only `(ground,
texture_dem)`. -/
def add_displace_modifier (texture : Texture) (strength : ℚ)
    (direction : String) (applyNow : Bool) : Stage :=
  Stage.displace texture.name strength direction applyNow

/-- Embedding of `add_decimate_modifier(obj, ratio, apply, show_viewport)`
(lines 226-238); source defaults `ratio=0.5`, `apply=False`,
`show_viewport=False`. Never invoked by `main` (the call at line 191 is
commented out). -/
def add_decimate_modifier (ratio : ℚ) (applyNow : Bool)
    (show_viewport : Bool) : Stage :=
  Stage.decimate ratio show_viewport applyNow

/-- The real-world half-extent pair computed by `main` (lines 161-162):
`(width * |geot[1]| / 2, height * |geot[5]| / 2)`. -/
def extentOf (w h : ℕ) (pw ph : ℚ) : ℚ × ℚ :=
  ((w : ℚ) * |pw| / 2, (h : ℚ) * |ph| / 2)

/-- Observable effects of one run of `main`: what it printed, returned, and
asked the Blender host and filesystem to do. -/
structure RunEffects where
  usageWritten : Bool
  exitCode : ℕ
  sizeWarn : Bool
  meshBuilt : Bool
  groundScale : Option (ℚ × ℚ × ℚ)
  extentR : Option (ℚ × ℚ)
  cuts : Option ℚ
  demColorspace : Option String
  material : Option Material
  stages : List Stage
  packed : Bool
  savedPath : Option String

/-- The run `main` performs when fewer than two arguments follow `--`
(lines 150-152): write the usage message and return 1, touching nothing
else. -/
def usageRun : RunEffects :=
  { usageWritten := true
    exitCode := 1
    sizeWarn := false
    meshBuilt := false
    groundScale := none
    extentR := none
    cuts := none
    demColorspace := none
    material := none
    stages := []
    packed := true
    savedPath := none }

/-- The run `main` performs on the success path (lines 154-197), given the
two opened images' pixel sizes and the two geotransform coefficients it
reads: warn iff the sizes differ, scale the ground plane by the half
extents, subdivide with `max(xsize, ysize)` cuts, build the two-layer
material (slot 0 the DEM texture with visibility off and the DEM image
forced to the `Linear` color space, slot 1 the color texture), add the
single unbaked Displace modifier targeting the DEM texture, pack, save to
`/tmp/dtm.blend` and return 0. -/
def successRun (demS imgS : ℕ × ℕ) (g1 g5 : ℚ) : RunEffects :=
  let xsize : ℚ := (demS.1 : ℚ) * |g1| / 2
  let ysize : ℚ := (demS.2 : ℚ) * |g5| / 2
  let m1 : Material := { new_material with specular_intensity := 0, name := "Ground" }
  let p2 := new_image_texture m1 ImgId.demImg "dem"
  let m3 : Material :=
    { p2.2 with use_textures := Function.update p2.2.use_textures p2.2.active_texture_index false }
  let m4 : Material := { m3 with active_texture_index := m3.active_texture_index + 1 }
  let p5 := new_image_texture m4 ImgId.imgImg "img"
  { usageWritten := false
    exitCode := 0
    sizeWarn := decide (demS ≠ imgS)
    meshBuilt := true
    groundScale := some (xsize, ysize, 1)
    extentR := some (xsize, ysize)
    cuts := some (max xsize ysize)
    demColorspace := some "Linear"
    material := some p5.2
    stages := [add_displace_modifier p2.1 1 "Z" false]
    packed := true
    savedPath := some "/tmp/dtm.blend" }

/-- The argument extraction at the top of `main` (lines 146-148): the
arguments after the first `--`, or the empty list when there is no `--`. -/
def argsOf (argv : List String) : List String :=
  if "--" ∈ argv then argv.drop (argv.indexOf "--" + 1) else []

/-- Shallow embedding of `main(argv)` (lines 145-197) as a function of the
argument vector, the pixel sizes of the two images it opens, and the
outcome of the external geotransform query. `none` models an uncaught
exception (the only unguarded failure in the translated slice is the
indexing `geot[1]` / `geot[5]` at lines 161-162). -/
def mainRun (argv : List String) (demS imgS : ℕ × ℕ) (geo : ExtResult) :
    Option RunEffects :=
  let args := argsOf argv
  if args.length < 2 then some usageRun
  else
    match (geotransform geo)[1]?, (geotransform geo)[5]? with
    | some g1, some g5 => some (successRun demS imgS g1 g5)
    | _, _ => none

/-- Observable effects of one call to `add_hillshade(demfile, material)`
(lines 240-252), as a function of whether the sibling hillshade file
already exists on disk: derive the output path by appending the fixed
suffix, invoke `gdaldem` only when that file is absent, open it, and bind
it as a normal-map texture layer in the next slot with diffuse color
mapping off and normal factor −1/2. -/
structure HillshadeEffects where
  toolInvoked : Bool
  outputPath : String
  openedPath : String
  material : Material
  use_map_color_diffuse : Bool
  use_map_normal : Bool
  normal_factor : ℚ

/-- Embedding of `add_hillshade` (lines 240-252). The filesystem is passed
in as the predicate `fileExists` queried by `os.path.isfile`. -/
def add_hillshade (fileExists : String → Bool) (demfile : String)
    (m : Material) : HillshadeEffects :=
  let hillshade_png := demfile ++ ".hillshade.png"
  let invoked := !fileExists hillshade_png
  let m1 : Material := { m with active_texture_index := m.active_texture_index + 1 }
  let p2 := new_image_texture m1 (ImgId.fileImg hillshade_png) "hsh"
  let m3 : Material :=
    { p2.2 with
      slots := Function.update p2.2.slots p2.2.active_texture_index
        (some { p2.1 with use_normal_map := true }) }
  { toolInvoked := invoked
    outputPath := hillshade_png
    openedPath := hillshade_png
    material := m3
    use_map_color_diffuse := false
    use_map_normal := true
    normal_factor := -(1 / 2) }

example : argsOf ["blender", "--", "a.tif", "b.tif"] = ["a.tif", "b.tif"] := by decide
example : argsOf ["a.tif", "b.tif"] = [] := by decide
example : (mainRun ["x"] (1, 1) (1, 1) .raised).map RunEffects.exitCode = some 1 := rfl
example : (mainRun ["--", "a", "b"] (200, 100) (200, 100) .raised).map RunEffects.exitCode
    = some 0 := rfl
example : (mainRun ["--", "a", "b"] (200, 100) (200, 100) .raised).map RunEffects.cuts
    = some (some (max ((200 : ℚ) * |(1 : ℚ)| / 2) ((100 : ℚ) * |(1 : ℚ)| / 2))) := rfl

theorem splitCS_no_comma : ∀ t : List Char, ',' ∉ t → splitCommaSpace t = [t]
  | [], _ => by simp [splitCommaSpace]
  | [c], _ => by simp [splitCommaSpace]
  | c :: d :: rest, h => by
      have hc : c ≠ ',' := fun e => h (by simp [e])
      have h2 : ',' ∉ d :: rest := fun m => h (List.mem_cons_of_mem _ m)
      simp [splitCommaSpace, hc, splitCS_no_comma (d :: rest) h2]

theorem splitCS_append : ∀ (t rest : List Char), ',' ∉ t →
    splitCommaSpace (t ++ ',' :: ' ' :: rest) = t :: splitCommaSpace rest
  | [], rest, _ => by simp [splitCommaSpace]
  | [c], rest, h => by
      have hc : c ≠ ',' := fun e => h (by simp [e])
      simp [splitCommaSpace, hc]
  | c :: d :: t, rest, h => by
      have hc : c ≠ ',' := fun e => h (by simp [e])
      have h2 : ',' ∉ d :: t := fun m => h (List.mem_cons_of_mem _ m)
      have ih := splitCS_append (d :: t) rest h2
      simp only [List.cons_append] at ih ⊢
      simp [splitCommaSpace, hc, ih]

theorem splitCS_intercalate : ∀ ts : List (List Char), ts ≠ [] →
    (∀ t ∈ ts, ',' ∉ t) → splitCommaSpace (intercalateCS ts) = ts
  | [], h, _ => absurd rfl h
  | [t], _, h => by
      have ht : ',' ∉ t := h t (by simp)
      simp [intercalateCS, splitCS_no_comma t ht]
  | t :: t' :: ts, _, h => by
      have h1 : ',' ∉ t := h t (by simp)
      have h2 : ∀ u ∈ t' :: ts, ',' ∉ u := fun u hu => h u (by simp [hu])
      have ih := splitCS_intercalate (t' :: ts) (by simp) h2
      simp [intercalateCS, splitCS_append t _ h1, ih]

theorem parseAll_length (f : List Char → Option ℚ) :
    ∀ (ts : List (List Char)) (qs : List ℚ), parseAll f ts = some qs →
      qs.length = ts.length := by
  intro ts
  induction ts with
  | nil => intro qs h; simp [parseAll] at h; simp [h.symm]
  | cons t ts ih =>
      intro qs h
      cases hft : f t with
      | none => simp [parseAll, hft] at h
      | some q =>
          cases hrest : parseAll f ts with
          | none => simp [parseAll, hft, hrest] at h
          | some qs' =>
              simp [parseAll, hft, hrest] at h
              simp [h.symm, ih qs' hrest]

theorem pySlice1m1_tupleRepr (ts : List (List Char)) :
    pySlice1m1 (tupleRepr ts) = intercalateCS ts := by
  simp [pySlice1m1, tupleRepr, List.dropLast_concat]

theorem mainRun_some_elim {argv : List String} {demS imgS : ℕ × ℕ}
    {geo : ExtResult} {r : RunEffects}
    (h : mainRun argv demS imgS geo = some r) (hu : r.usageWritten = false) :
    ∃ g1 g5, (geotransform geo)[1]? = some g1 ∧
      (geotransform geo)[5]? = some g5 ∧
      r = successRun demS imgS g1 g5 ∧ ¬(argsOf argv).length < 2 := by
  by_cases hlt : (argsOf argv).length < 2
  · simp [mainRun, hlt] at h
    rw [← h] at hu
    simp [usageRun] at hu
  · cases hg1 : (geotransform geo)[1]? with
    | none => simp [mainRun, hlt, hg1] at h
    | some g1 =>
        cases hg5 : (geotransform geo)[5]? with
        | none => simp [mainRun, hlt, hg1, hg5] at h
        | some g5 =>
            simp [mainRun, hlt, hg1, hg5] at h
            exact ⟨g1, g5, rfl, rfl, h.symm, hlt⟩

theorem successRun_extentR (demS imgS : ℕ × ℕ) (g1 g5 : ℚ) :
    (successRun demS imgS g1 g5).extentR
      = some (extentOf demS.1 demS.2 g1 g5) := rfl

theorem successRun_cuts (demS imgS : ℕ × ℕ) (g1 g5 : ℚ) :
    (successRun demS imgS g1 g5).cuts
      = some (max (extentOf demS.1 demS.2 g1 g5).1
                  (extentOf demS.1 demS.2 g1 g5).2) := rfl

/-- C1: for every well-formed 6-tuple printed by the external metadata
query, `geotransform` returns exactly those six floats in the printed
order; for an exception at the query boundary, for empty output, and for
any output whose stripped-and-split tokens fail float conversion, it
returns the identity transform `(0,1,0,0,0,1)`; as a total Lean function it
never raises to its caller. -/
theorem geotransform_total_fallback :
    (∀ (ts : List (List Char)) (qs : List ℚ), ts.length = 6 →
        (∀ t ∈ ts, ',' ∉ t) → parseAll pyFloat ts = some qs →
        geotransform (.out (tupleRepr ts)) = qs)
    ∧ geotransform .raised = identityTransform
    ∧ geotransform (.out []) = identityTransform
    ∧ (∀ s : List Char,
        parseAll pyFloat (splitCommaSpace (pySlice1m1 s)) = none →
        geotransform (.out s) = identityTransform) := by
  refine ⟨?_, rfl, rfl, ?_⟩
  · intro ts qs hlen hcomma hparse
    have hne : ts ≠ [] := by intro e; simp [e] at hlen
    have h0 : tupleRepr ts ≠ [] := by simp [tupleRepr]
    simp only [geotransform, if_neg h0, pySlice1m1_tupleRepr,
      splitCS_intercalate ts hne hcomma, hparse]
  · intro s hparse
    by_cases hs : s = []
    · simp [geotransform, hs]
    · simp [geotransform, hs, hparse]

/-- C1 witness: the well-formed printed tuple `(0, 2, 0, 0, 0, -1)` is
returned as exactly those six rationals, in order. -/
theorem geotransform_total_fallback_witness :
    geotransform (.out (tupleRepr [['0'], ['2'], ['0'], ['0'], ['0'], ['-', '1']]))
      = [decValue (0, 0), decValue (2, 0), decValue (0, 0), decValue (0, 0),
         decValue (0, 0), decValue (-1, 0)] :=
  geotransform_total_fallback.1 _ _ rfl (by decide) rfl

/-- C10: the success branch of `geotransform` does no length validation —
a parsed token list of any length N comes back as exactly N floats; the
identity fallback has exactly 6 entries; and, past the usage check, `main`
completes (its element accesses `geot[1]` and `geot[5]` are safe) exactly
when the resolved transform has at least 6 entries. -/
theorem geotransform_no_length_validation :
    (∀ (ts : List (List Char)) (qs : List ℚ), ts ≠ [] →
        (∀ t ∈ ts, ',' ∉ t) → parseAll pyFloat ts = some qs →
        geotransform (.out (tupleRepr ts)) = qs ∧ qs.length = ts.length)
    ∧ identityTransform.length = 6
    ∧ (∀ (argv : List String) (demS imgS : ℕ × ℕ) (geo : ExtResult),
        2 ≤ (argsOf argv).length →
        ((mainRun argv demS imgS geo).isSome ↔ 6 ≤ (geotransform geo).length)) := by
  refine ⟨?_, rfl, ?_⟩
  · intro ts qs hne hcomma hparse
    have h0 : tupleRepr ts ≠ [] := by simp [tupleRepr]
    constructor
    · simp only [geotransform, if_neg h0, pySlice1m1_tupleRepr,
        splitCS_intercalate ts hne hcomma, hparse]
    · exact parseAll_length pyFloat ts qs hparse
  · intro argv demS imgS geo hlen
    have hnot : ¬(argsOf argv).length < 2 := by omega
    cases hg1 : (geotransform geo)[1]? with
    | none =>
        have h1 : (geotransform geo).length ≤ 1 := List.getElem?_eq_none_iff.mp hg1
        simp only [mainRun, if_neg hnot, hg1]
        simp
        omega
    | some g1 =>
        cases hg5 : (geotransform geo)[5]? with
        | none =>
            have h5 : (geotransform geo).length ≤ 5 := List.getElem?_eq_none_iff.mp hg5
            simp only [mainRun, if_neg hnot, hg1, hg5]
            simp
            omega
        | some g5 =>
            have h5 : 5 < (geotransform geo).length := by
              by_contra hh
              have : (geotransform geo)[5]? = none :=
                List.getElem?_eq_none_iff.mpr (by omega)
              simp [this] at hg5
            simp only [mainRun, if_neg hnot, hg1, hg5]
            simp
            omega

/-- C10 witness: a 3-tuple output yields a 3-element transform, and with
that transform `main` (past the usage check) does not complete. -/
theorem geotransform_no_length_validation_witness :
    (geotransform (.out (tupleRepr [['7'], ['8'], ['9']]))
        = [decValue (7, 0), decValue (8, 0), decValue (9, 0)]
      ∧ ([decValue (7, 0), decValue (8, 0), decValue (9, 0)] : List ℚ).length
        = [['7'], ['8'], ['9']].length)
    ∧ ((mainRun ["--", "a.tif", "b.tif"] (1, 1) (1, 1)
          (.out (tupleRepr [['7'], ['8'], ['9']]))).isSome
        ↔ 6 ≤ (geotransform (.out (tupleRepr [['7'], ['8'], ['9']]))).length) :=
  ⟨geotransform_no_length_validation.1 _ _ (by decide) (by decide) rfl,
   geotransform_no_length_validation.2.2 _ _ _ _ (by decide)⟩

theorem mainRun_some_cases {argv : List String} {demS imgS : ℕ × ℕ}
    {geo : ExtResult} {r : RunEffects}
    (h : mainRun argv demS imgS geo = some r) :
    r = usageRun ∨ ∃ g1 g5, r = successRun demS imgS g1 g5 := by
  by_cases hlt : (argsOf argv).length < 2
  · simp [mainRun, hlt] at h
    exact Or.inl h.symm
  · cases hg1 : (geotransform geo)[1]? with
    | none => simp [mainRun, hlt, hg1] at h
    | some g1 =>
        cases hg5 : (geotransform geo)[5]? with
        | none => simp [mainRun, hlt, hg1, hg5] at h
        | some g5 =>
            simp [mainRun, hlt, hg1, hg5] at h
            exact Or.inr ⟨g1, g5, h.symm⟩

theorem extentOf_nonneg (w h : ℕ) (pw ph : ℚ) :
    0 ≤ (extentOf w h pw ph).1 ∧ 0 ≤ (extentOf w h pw ph).2 := by
  constructor <;>
  · apply div_nonneg _ (by norm_num)
    exact mul_nonneg (Nat.cast_nonneg _) (abs_nonneg _)

/-- C2: the extent `main` computes is `(width * |geot[1]| / 2,
height * |geot[5]| / 2)` of the DEM raster; in particular a 200×100 DEM
with pixel width 2 and pixel height −1 gives `(200, 50)`, and the fallback
identity transform gives `(width / 2, height / 2)`. -/
theorem extent_formula :
    (∀ (argv : List String) (demS imgS : ℕ × ℕ) (geo : ExtResult) (r : RunEffects)
        (g1 g5 : ℚ), mainRun argv demS imgS geo = some r → r.usageWritten = false →
        (geotransform geo)[1]? = some g1 → (geotransform geo)[5]? = some g5 →
        r.extentR = some (extentOf demS.1 demS.2 g1 g5))
    ∧ extentOf 200 100 2 (-1) = (200, 50)
    ∧ (∀ w h : ℕ, extentOf w h (identityTransform.getD 1 0) (identityTransform.getD 5 0)
        = ((w : ℚ) / 2, (h : ℚ) / 2)) := by
  refine ⟨?_, by norm_num [extentOf], ?_⟩
  · intro argv demS imgS geo r g1 g5 h hu hg1 hg5
    obtain ⟨g1', g5', hg1', hg5', hr, _⟩ := mainRun_some_elim h hu
    rw [hg1'] at hg1
    rw [hg5'] at hg5
    injection hg1 with e1
    injection hg5 with e5
    rw [hr, successRun_extentR, e1, e5]
  · intro w h
    have h1 : identityTransform.getD 1 0 = 1 := rfl
    have h5 : identityTransform.getD 5 0 = 1 := rfl
    rw [h1, h5]
    simp [extentOf]

/-- C2 witness: a 200×100 DEM with resolved transform `(0, 2, 0, 0, 0, -1)`
gets the formula's extent. -/
theorem extent_formula_witness :
    (successRun (200, 100) (200, 100) (decValue (2, 0)) (decValue (-1, 0))).extentR
      = some (extentOf 200 100 (decValue (2, 0)) (decValue (-1, 0))) :=
  extent_formula.1 ["--", "a.tif", "b.tif"] (200, 100) (200, 100)
    (.out (tupleRepr [['0'], ['2'], ['0'], ['0'], ['0'], ['-', '1']]))
    _ _ _ rfl rfl rfl rfl

/-- C3 as stated is false: `main` passes `max(xsize, ysize)` itself to the
subdivision, with no rounding and no minimum of 1 — a 101×1 DEM under the
identity transform yields 101/2 cuts, which is no integer's value (in
particular neither 50 nor 51, the two candidate roundings), and a 0×0 DEM
yields 0 cuts, below 1. -/
theorem subdivide_cuts_cex :
    (mainRun ["--", "dem.tif", "img.tif"] (101, 1) (101, 1) .raised).map RunEffects.cuts
      = some (some (101 / 2 : ℚ))
    ∧ (101 / 2 : ℚ) ≠ ((50 : ℤ) : ℚ) ∧ (101 / 2 : ℚ) ≠ ((51 : ℤ) : ℚ)
    ∧ (mainRun ["--", "dem.tif", "img.tif"] (0, 0) (0, 0) .raised).map RunEffects.cuts
      = some (some (0 : ℚ))
    ∧ ¬(1 : ℚ) ≤ (0 : ℚ) := by
  refine ⟨?_, by norm_num, by norm_num, ?_, by norm_num⟩
  · have h : mainRun ["--", "dem.tif", "img.tif"] (101, 1) (101, 1) .raised
        = some (successRun (101, 1) (101, 1) 1 1) := rfl
    rw [h, Option.map_some', successRun_cuts]
    norm_num [extentOf, max_def]
  · have h : mainRun ["--", "dem.tif", "img.tif"] (0, 0) (0, 0) .raised
        = some (successRun (0, 0) (0, 0) 1 1) := rfl
    rw [h, Option.map_some', successRun_cuts]
    norm_num [extentOf, max_def]

/-- C3 amended: on every completed non-usage run, the cut count passed to
the mesh subdivision equals `max(xsize, ysize)` exactly — unrounded and
with no minimum clamp (the `number_cuts=1` default of `subdivide` is
overridden by the call); it coincides with `round(max(xsize, ysize))`,
e.g. 200 for extent `(200, 50)`, exactly when that maximum is an integer
value. -/
theorem subdivide_cuts_exact :
    ∀ (argv : List String) (demS imgS : ℕ × ℕ) (geo : ExtResult) (r : RunEffects),
      mainRun argv demS imgS geo = some r → r.usageWritten = false →
      r.cuts = r.extentR.map (fun e => max e.1 e.2) := by
  intro argv demS imgS geo r h hu
  obtain ⟨g1, g5, _, _, hr, _⟩ := mainRun_some_elim h hu
  subst hr
  rfl

/-- C3 amended witness: the 200×100 DEM with pixel sizes 2 and −1 (extent
`(200, 50)`) passes `max(200, 50) = 200` cuts. -/
theorem subdivide_cuts_exact_witness :
    (successRun (200, 100) (200, 100) (decValue (2, 0)) (decValue (-1, 0))).cuts
      = (successRun (200, 100) (200, 100) (decValue (2, 0)) (decValue (-1, 0))).extentR.map
          (fun e => max e.1 e.2) :=
  subdivide_cuts_exact ["--", "a.tif", "b.tif"] (200, 100) (200, 100)
    (.out (tupleRepr [['0'], ['2'], ['0'], ['0'], ['0'], ['-', '1']])) _ rfl rfl

/-- C4 as stated is false: with DEM width 0 but height 100 under the
fallback transform the computed extent is `(0, 50)`, not `(0, 0)` in both
components. -/
theorem extent_zero_dim_cex :
    (mainRun ["--", "dem.tif", "img.tif"] (0, 100) (0, 100) .raised).map RunEffects.extentR
      = some (some ((0 : ℚ), (50 : ℚ)))
    ∧ ((0 : ℚ), (50 : ℚ)) ≠ ((0 : ℚ), (0 : ℚ)) := by
  constructor
  · have h : mainRun ["--", "dem.tif", "img.tif"] (0, 100) (0, 100) .raised
        = some (successRun (0, 100) (0, 100) 1 1) := rfl
    rw [h, Option.map_some', successRun_extentR]
    norm_num [extentOf]
  · simp

/-- C4 amended: the computed extent is component-wise non-negative; a zero
width zeroes the first component and a zero height zeroes the second (only
the corresponding component — both vanish only when both dimensions do). -/
theorem extent_nonneg :
    (∀ (w h : ℕ) (pw ph : ℚ),
        0 ≤ (extentOf w h pw ph).1 ∧ 0 ≤ (extentOf w h pw ph).2
        ∧ (w = 0 → (extentOf w h pw ph).1 = 0)
        ∧ (h = 0 → (extentOf w h pw ph).2 = 0)
        ∧ (w = 0 ∧ h = 0 → extentOf w h pw ph = (0, 0)))
    ∧ (∀ (argv : List String) (demS imgS : ℕ × ℕ) (geo : ExtResult) (r : RunEffects)
        (e : ℚ × ℚ), mainRun argv demS imgS geo = some r → r.extentR = some e →
        0 ≤ e.1 ∧ 0 ≤ e.2) := by
  constructor
  · intro w h pw ph
    refine ⟨(extentOf_nonneg w h pw ph).1, (extentOf_nonneg w h pw ph).2, ?_, ?_, ?_⟩
    · intro hw; simp [extentOf, hw]
    · intro hh; simp [extentOf, hh]
    · rintro ⟨hw, hh⟩; simp [extentOf, hw, hh]
  · intro argv demS imgS geo r e h he
    rcases mainRun_some_cases h with hr | ⟨g1, g5, hr⟩
    · rw [hr] at he
      simp [usageRun] at he
    · rw [hr, successRun_extentR] at he
      cases he
      exact extentOf_nonneg demS.1 demS.2 g1 g5

/-- C4 amended witness: at width 0, height 100, pixel sizes 2 and −1 the
first component vanishes and both components are non-negative, both as the
bare formula and on a concrete completed run. -/
theorem extent_nonneg_witness :
    ((extentOf 0 100 2 (-1)).1 = 0 ∧ 0 ≤ (extentOf 0 100 2 (-1)).2)
    ∧ (0 ≤ (extentOf 0 100 1 1).1 ∧ 0 ≤ (extentOf 0 100 1 1).2) :=
  ⟨⟨(extent_nonneg.1 0 100 2 (-1)).2.2.1 rfl, (extent_nonneg.1 0 100 2 (-1)).2.1⟩,
   extent_nonneg.2 ["--", "a.tif", "b.tif"] (0, 100) (0, 100) .raised
     (successRun (0, 100) (0, 100) 1 1) (extentOf 0 100 1 1) rfl rfl⟩

/-- C5: on every completed non-usage run the composed material binds slot 0
to the DEM texture (named `dem`, type `IMAGE`) with its material-visibility
flag cleared and the DEM image forced to the `Linear` color space, and
slot 1 to the color texture (named `img`, type `IMAGE`) with visibility
still enabled. -/
theorem material_layers :
    ∀ (argv : List String) (demS imgS : ℕ × ℕ) (geo : ExtResult) (r : RunEffects),
      mainRun argv demS imgS geo = some r → r.usageWritten = false →
      r.material.map
          (fun m => (m.slots 0, m.use_textures 0, m.slots 1, m.use_textures 1))
        = some
            (some { name := "dem", type := "IMAGE", image := ImgId.demImg,
                    use_normal_map := false },
             false,
             some { name := "img", type := "IMAGE", image := ImgId.imgImg,
                    use_normal_map := false },
             true)
      ∧ r.demColorspace = some "Linear" := by
  intro argv demS imgS geo r h hu
  obtain ⟨g1, g5, _, _, hr, _⟩ := mainRun_some_elim h hu
  subst hr
  exact ⟨rfl, rfl⟩

/-- C5 witness: the layer layout on a concrete completed run. -/
theorem material_layers_witness :
    (successRun (200, 100) (200, 100) 1 1).material.map
        (fun m => (m.slots 0, m.use_textures 0, m.slots 1, m.use_textures 1))
      = some
          (some { name := "dem", type := "IMAGE", image := ImgId.demImg,
                  use_normal_map := false },
           false,
           some { name := "img", type := "IMAGE", image := ImgId.imgImg,
                  use_normal_map := false },
           true)
    ∧ (successRun (200, 100) (200, 100) 1 1).demColorspace = some "Linear" :=
  material_layers ["--", "a.tif", "b.tif"] (200, 100) (200, 100) .raised _ rfl rfl

/-- C6: whenever fewer than two arguments follow the `--` separator (and in
particular whenever there is no `--` at all, which leaves the argument list
empty), `main` writes the usage message and returns 1 without building a
mesh or material; every completed non-usage run returns 0 with the mesh
built. -/
theorem usage_error_paths :
    ∀ (argv : List String) (demS imgS : ℕ × ℕ) (geo : ExtResult),
      ((argsOf argv).length < 2 → mainRun argv demS imgS geo = some usageRun)
      ∧ ("--" ∉ argv → argsOf argv = [])
      ∧ usageRun.usageWritten = true ∧ usageRun.exitCode = 1
      ∧ usageRun.meshBuilt = false ∧ usageRun.material = none
      ∧ usageRun.groundScale = none
      ∧ (∀ r : RunEffects, mainRun argv demS imgS geo = some r →
          r.usageWritten = false → r.exitCode = 0 ∧ r.meshBuilt = true) := by
  intro argv demS imgS geo
  refine ⟨fun hlt => by simp [mainRun, hlt], fun hmem => by simp [argsOf, hmem],
    rfl, rfl, rfl, rfl, rfl, ?_⟩
  intro r h hu
  obtain ⟨g1, g5, _, _, hr, _⟩ := mainRun_some_elim h hu
  subst hr
  exact ⟨rfl, rfl⟩

/-- C6 witness: with no `--` in the argument vector `main` takes the usage
path, and a well-formed vector completes with exit code 0. -/
theorem usage_error_paths_witness :
    mainRun ["blender", "-P", "blend_dtm.py"] (1, 1) (1, 1) .raised = some usageRun
    ∧ argsOf ["blender", "-P", "blend_dtm.py"] = []
    ∧ ((successRun (1, 1) (1, 1) 1 1).exitCode = 0
        ∧ (successRun (1, 1) (1, 1) 1 1).meshBuilt = true) :=
  ⟨(usage_error_paths ["blender", "-P", "blend_dtm.py"] (1, 1) (1, 1) .raised).1
     (by decide),
   (usage_error_paths ["blender", "-P", "blend_dtm.py"] (1, 1) (1, 1) .raised).2.1
     (by decide),
   (usage_error_paths ["--", "a.tif", "b.tif"] (1, 1) (1, 1) .raised).2.2.2.2.2.2.2
     _ rfl rfl⟩

/-- C7: a completed non-usage run warns exactly when the DEM and color
image pixel sizes differ, still returns 0, and its extent is computed from
the DEM size alone — replacing the color image's size changes neither the
extent nor the exit code. -/
theorem size_mismatch_nonfatal :
    ∀ (argv : List String) (demS imgS imgS' : ℕ × ℕ) (geo : ExtResult) (r : RunEffects),
      mainRun argv demS imgS geo = some r → r.usageWritten = false →
      r.sizeWarn = decide (demS ≠ imgS)
      ∧ r.exitCode = 0
      ∧ (mainRun argv demS imgS' geo).map RunEffects.extentR = some r.extentR
      ∧ (mainRun argv demS imgS' geo).map RunEffects.exitCode = some 0 := by
  intro argv demS imgS imgS' geo r h hu
  obtain ⟨g1, g5, hg1, hg5, hr, hlt⟩ := mainRun_some_elim h hu
  subst hr
  have h' : mainRun argv demS imgS' geo = some (successRun demS imgS' g1 g5) := by
    simp [mainRun, hlt, hg1, hg5]
  refine ⟨rfl, rfl, ?_, ?_⟩
  · rw [h', Option.map_some']
    rfl
  · rw [h', Option.map_some']
    rfl

/-- C7 witness: a 200×100 DEM with a 150×80 color image completes, warns,
and keeps the DEM-derived extent. -/
theorem size_mismatch_nonfatal_witness :
    (successRun (200, 100) (150, 80) 1 1).sizeWarn = decide (((200, 100) : ℕ × ℕ) ≠ (150, 80))
    ∧ (successRun (200, 100) (150, 80) 1 1).exitCode = 0
    ∧ (mainRun ["--", "a.tif", "b.tif"] (200, 100) (99, 7) .raised).map RunEffects.extentR
        = some (successRun (200, 100) (150, 80) 1 1).extentR
    ∧ (mainRun ["--", "a.tif", "b.tif"] (200, 100) (99, 7) .raised).map RunEffects.exitCode
        = some 0 :=
  size_mismatch_nonfatal ["--", "a.tif", "b.tif"] (200, 100) (150, 80) (99, 7)
    .raised _ rfl rfl

/-- C8: every completed non-usage run adds exactly one modifier stage — an
unbaked Displace of strength 1, direction `Z`, targeting the `dem`
texture — no Decimate stage, leaves slot 2 (the hillshade slot) empty,
packs resources, and saves to the fixed path `/tmp/dtm.blend`. -/
theorem default_pipeline :
    ∀ (argv : List String) (demS imgS : ℕ × ℕ) (geo : ExtResult) (r : RunEffects),
      mainRun argv demS imgS geo = some r → r.usageWritten = false →
      r.stages = [Stage.displace "dem" 1 "Z" false]
      ∧ (∀ (q : ℚ) (b1 b2 : Bool), Stage.decimate q b1 b2 ∉ r.stages)
      ∧ r.material.map (fun m => m.slots 2) = some none
      ∧ r.savedPath = some "/tmp/dtm.blend"
      ∧ r.packed = true := by
  intro argv demS imgS geo r h hu
  obtain ⟨g1, g5, _, _, hr, _⟩ := mainRun_some_elim h hu
  subst hr
  refine ⟨rfl, ?_, rfl, rfl, rfl⟩
  intro q b1 b2 hmem
  simp [successRun, add_displace_modifier, new_image_texture] at hmem

/-- C8 witness: the default pipeline effects on a concrete completed run. -/
theorem default_pipeline_witness :
    (successRun (200, 100) (200, 100) 1 1).stages = [Stage.displace "dem" 1 "Z" false]
    ∧ (∀ (q : ℚ) (b1 b2 : Bool),
        Stage.decimate q b1 b2 ∉ (successRun (200, 100) (200, 100) 1 1).stages)
    ∧ (successRun (200, 100) (200, 100) 1 1).material.map (fun m => m.slots 2) = some none
    ∧ (successRun (200, 100) (200, 100) 1 1).savedPath = some "/tmp/dtm.blend"
    ∧ (successRun (200, 100) (200, 100) 1 1).packed = true :=
  default_pipeline ["--", "a.tif", "b.tif"] (200, 100) (200, 100) .raised _ rfl rfl

/-- C9: `add_hillshade` derives its output path by appending the fixed
suffix `.hillshade.png` to the DEM path, reuses that file when it already
exists — invoking the external tool exactly when the file is absent — and
always opens the derived path. -/
theorem add_hillshade_idempotent :
    ∀ (fileExists : String → Bool) (demfile : String) (m : Material),
      (fileExists (demfile ++ ".hillshade.png") = true →
        (add_hillshade fileExists demfile m).toolInvoked = false)
      ∧ (add_hillshade fileExists demfile m).outputPath = demfile ++ ".hillshade.png"
      ∧ (add_hillshade fileExists demfile m).openedPath
          = (add_hillshade fileExists demfile m).outputPath
      ∧ ((add_hillshade fileExists demfile m).toolInvoked = true
          ↔ fileExists (demfile ++ ".hillshade.png") = false) := by
  intro fileExists demfile m
  refine ⟨?_, rfl, rfl, ?_⟩
  · intro hex
    simp [add_hillshade, hex]
  · cases hex : fileExists (demfile ++ ".hillshade.png") <;>
      simp [add_hillshade, hex]

/-- C9 witness: when the filesystem already holds `dem.tif.hillshade.png`,
the call for `dem.tif` does not invoke the tool and reuses that path. -/
theorem add_hillshade_idempotent_witness :
    (add_hillshade (fun _ => true) "dem.tif" new_material).toolInvoked = false
    ∧ (add_hillshade (fun _ => true) "dem.tif" new_material).outputPath
        = "dem.tif" ++ ".hillshade.png"
    ∧ (add_hillshade (fun _ => true) "dem.tif" new_material).openedPath
        = (add_hillshade (fun _ => true) "dem.tif" new_material).outputPath :=
  ⟨(add_hillshade_idempotent (fun _ => true) "dem.tif" new_material).1 rfl,
   (add_hillshade_idempotent (fun _ => true) "dem.tif" new_material).2.1,
   (add_hillshade_idempotent (fun _ => true) "dem.tif" new_material).2.2.1⟩
